import Mathlib

/-!
Verification of the safe-error library (src/helpers.ts, src/types.ts).

The library is a two-variant result type `Either<L,R>` with combinators
(`left`, `right`, `isLeft`, `isRight`, `map`, `mapLeft`, `chain`, `pipe`,
`fold`, `fromNullable`, `getOrElse`) and two fault-capture adapters
(`tryCatch`, `tryCatchAsync`).

Modelling choices:
- The discriminated union `{_tag: "Left", value} | {_tag: "Right", value}`
  is the inductive `Either` below; the tag is the constructor.
- A function that may raise a fault is modelled as a computation result
  of type `Except F α` (`Except.error e` = the invocation raised fault `e`,
  `Except.ok a` = it completed normally with `a`). Handlers such as
  `onError`, `f` in `map`/`chain`, and `onLeft`/`onRight` are total Lean
  functions, matching their declared types in the source.
- A settled deferred value (Promise) of result type `α` is `Except F α`:
  `Except.error e` means it settled by fault (rejection) `e`. The argument
  of `tryCatchAsync`, `fn: () => Promise<R>`, is therefore
  `Except F (Except F R)`: the outer layer is the synchronous invocation
  of `fn` (which may throw before producing a deferred), the inner layer
  is the settlement of the deferred it produced.
- The heterogeneous `any`-typed intermediate values of `pipe` are
  modelled by fixing one Lean type `A` for every intermediate value; the
  source erases these types, and the claims about `pipe` concern only
  tag flow, which is independent of the payload type.
-/

namespace SafeError

universe u v w

/-- The tagged two-variant value from src/types.ts:
`Either<L, R> = { _tag: "Left"; value: L } | { _tag: "Right"; value: R }`. -/
inductive Either (L : Type u) (R : Type v) where
  | Left (value : L)
  | Right (value : R)
deriving Repr, DecidableEq

variable {L : Type u} {M : Type u} {R : Type v} {A : Type v} {B : Type w} {F : Type w}

/-- `left = (value) => ({ _tag: "Left", value })`. -/
def left (value : L) : Either L R := Either.Left value

/-- `right = (value) => ({ _tag: "Right", value })`. -/
def right (value : R) : Either L R := Either.Right value

/-- `isLeft = (e) => "_tag" in e && e._tag === "Left"`. -/
def isLeft : Either L R → Bool
  | Either.Left _ => true
  | Either.Right _ => false

/-- `isRight = (e) => "_tag" in e && e._tag === "Right"`. -/
def isRight : Either L R → Bool
  | Either.Left _ => false
  | Either.Right _ => true

/-- `map = (e, f) => isRight(e) ? right(f(e.value)) : e`. -/
def map (e : Either L A) (f : A → B) : Either L B :=
  match e with
  | Either.Right a => right (f a)
  | Either.Left l => Either.Left l

/-- `mapLeft = (e, f) => isLeft(e) ? left(f(e.value)) : e`. -/
def mapLeft (e : Either L R) (f : L → M) : Either M R :=
  match e with
  | Either.Left l => left (f l)
  | Either.Right r => Either.Right r

/-- `chain = (e, f) => isRight(e) ? f(e.value) : e`. -/
def chain (e : Either L A) (f : A → Either L B) : Either L B :=
  match e with
  | Either.Right a => f a
  | Either.Left l => Either.Left l

/-- `pipe = (initial, ...fns) => fns.reduce((acc, fn) => chain(acc, fn), initial)`. -/
def pipe (initial : Either L A) (fns : List (A → Either L A)) : Either L A :=
  fns.foldl (fun acc fn => chain acc fn) initial

/-- `fold = (e, onLeft, onRight) => isRight(e) ? onRight(e.value) : onLeft(e.value)`. -/
def fold (e : Either L A) (onLeft : L → B) (onRight : A → B) : B :=
  match e with
  | Either.Right a => onRight a
  | Either.Left l => onLeft l

/-- `tryCatch = (fn, onError) => { try { return right(fn()) } catch (e) { return left(onError(e)) } }`.
The invocation of the zero-argument `fn` is modelled by its result
`fn : Except F R` (normal completion or raised fault). -/
def tryCatch (fn : Except F R) (onError : F → L) : Either L R :=
  match fn with
  | Except.ok r => right r
  | Except.error e => left (onError e)

/-- Models `await fn()` inside `tryCatchAsync`: the invocation of `fn` may
raise synchronously (outer layer), otherwise the deferred it produced is
awaited (inner layer); either fault surfaces as the fault of the await. -/
def awaitCall (fn : Except F (Except F R)) : Except F R :=
  match fn with
  | Except.ok d => d
  | Except.error e => Except.error e

/-- `tryCatchAsync = async (fn, onError) => { try { return right(await fn()) } catch (e) { return left(onError(e)) } }`.
The returned settled deferred is `Except F (Either L R)`: `Except.ok`
means the outer promise fulfilled with that Either, `Except.error` would
mean it settled by fault. -/
def tryCatchAsync (fn : Except F (Except F R)) (onError : F → L) :
    Except F (Either L R) :=
  match awaitCall fn with
  | Except.ok r => Except.ok (right r)
  | Except.error e => Except.ok (left (onError e))

/-- The nullable argument type `A | null | undefined` of `fromNullable`:
JavaScript keeps `null` and `undefined` as two distinct sentinels, both
different from every proper value (including falsy values such as `0`,
`""` and `false`, which are proper values of `A`). -/
inductive Nullish (A : Type v) where
  | null
  | undefined
  | value (a : A)
deriving Repr, DecidableEq

/-- `fromNullable = (value, error) => value === null || value === undefined ? left(error) : right(value)`. -/
def fromNullable (value : Nullish A) (error : L) : Either L A :=
  match value with
  | Nullish.null => left error
  | Nullish.undefined => left error
  | Nullish.value a => right a

/-- `getOrElse = (e, defaultValue) => isRight(e) ? e.value : defaultValue`. -/
def getOrElse (e : Either L A) (defaultValue : A) : A :=
  match e with
  | Either.Right a => a
  | Either.Left _ => defaultValue

/-- Helper: folding `chain` from a `Left` stays that `Left`, whatever the
functions are. -/
theorem pipe_left_eq (e : L) (fns : List (A → Either L A)) :
    pipe (left e) fns = left e := by
  induction fns with
  | nil => rfl
  | cons f fns ih => simpa [pipe, List.foldl, chain, left] using ih

/-- Helper: `pipe` splits over list append. -/
theorem pipe_append (initial : Either L A) (l₁ l₂ : List (A → Either L A)) :
    pipe initial (l₁ ++ l₂) = pipe (pipe initial l₁) l₂ := by
  simp [pipe, List.foldl_append]

/-- Claim C1: for every function fn returning a deferred computation and
every handler onError, the deferred returned by tryCatchAsync(fn, onError)
never settles by fault; it settles with Right(r) when fn's deferred
completes normally with r, and with Left(onError(e)) when the invocation
fails with any fault e — whether the produced deferred rejects or fn
itself throws — so consumers only ever observe Either values. -/
theorem tryCatchAsync_only_settles_with_either (fn : Except F (Except F R))
    (onError : F → L) :
    (∀ e : F, tryCatchAsync fn onError ≠ Except.error e) ∧
    (∃ result : Either L R, tryCatchAsync fn onError = Except.ok result) ∧
    (∀ r : R, tryCatchAsync (Except.ok (Except.ok r : Except F R)) onError =
      Except.ok (right r)) ∧
    (∀ e : F, tryCatchAsync (Except.ok (Except.error e : Except F R)) onError =
      Except.ok (left (onError e))) ∧
    (∀ e : F, tryCatchAsync (Except.error e : Except F (Except F R)) onError =
      Except.ok (left (onError e))) := by
  refine ⟨?_, ?_, fun _ => rfl, fun _ => rfl, fun _ => rfl⟩
  · intro e h
    rcases fn with e₀ | d
    · simp [tryCatchAsync, awaitCall] at h
    · rcases d with e₁ | r <;> simp [tryCatchAsync, awaitCall] at h
  · rcases fn with e₀ | d
    · exact ⟨left (onError e₀), rfl⟩
    · rcases d with e₁ | r
      · exact ⟨left (onError e₁), rfl⟩
      · exact ⟨right r, rfl⟩

/-- Witness for C1 at concrete inputs: wrapping a deferred that completes
normally with 7 settles the outer deferred with Right 7. -/
theorem tryCatchAsync_only_settles_with_either_witness :
    tryCatchAsync (Except.ok (Except.ok 7 : Except String Nat))
      (fun s : String => s) = Except.ok (right 7) :=
  (tryCatchAsync_only_settles_with_either
    (Except.ok (Except.ok 7 : Except String Nat)) (fun s : String => s)).2.2.1 7

/-- Claim C2: chain on a Left never invokes its function argument (the
result is one and the same for every function) and returns the original
Left with the same error payload; and in pipe, once the initial value is
a Left or some step returns a Left, none of the subsequent functions is
ever invoked (the result is independent of them) and that Left flows
unchanged to the result. -/
theorem chain_pipe_short_circuit (e : L) :
    (∀ f : A → Either L B, chain (left e) f = left e) ∧
    (∀ f g : A → Either L B, chain (left e) f = chain (left e) g) ∧
    (∀ fns : List (A → Either L A), pipe (left e) fns = left e) ∧
    (∀ (initial : Either L A) (fns₁ : List (A → Either L A))
       (f : A → Either L A) (a : A) (fns₂ : List (A → Either L A)),
       pipe initial fns₁ = right a → f a = left e →
       pipe initial (fns₁ ++ f :: fns₂) = left e) := by
  refine ⟨fun _ => rfl, fun _ _ => rfl, fun fns => pipe_left_eq e fns,
    fun initial fns₁ f a fns₂ h₁ h₂ => ?_⟩
  rw [pipe_append, h₁]
  show pipe (chain (right a) f) fns₂ = left e
  rw [show chain (right a) f = left e from h₂]
  exact pipe_left_eq e fns₂

/-- Witness for C2 at concrete inputs: in a three-step pipeline over
Either String Nat whose second step fails, the Left flows to the end. -/
theorem chain_pipe_short_circuit_witness :
    pipe (right 0 : Either String Nat)
      [fun n => right (n + 1), fun _ => left "boom", fun n => right (n * 2)] =
      left "boom" :=
  (@chain_pipe_short_circuit String Nat Nat "boom").2.2.2 (right 0)
    [fun n => right (n + 1)] (fun _ => left "boom") 1 [fun n => right (n * 2)]
    rfl rfl

/-- Claim C3: pipe is the left-to-right fold of chain over the function
sequence starting from the initial Either: it returns the initial value
on the empty sequence, peels one chain application per step, and equals
List.foldl chain. -/
theorem pipe_is_fold_of_chain (initial : Either L A) :
    pipe initial ([] : List (A → Either L A)) = initial ∧
    (∀ (f : A → Either L A) (fns : List (A → Either L A)),
      pipe initial (f :: fns) = pipe (chain initial f) fns) ∧
    (∀ fns : List (A → Either L A),
      pipe initial fns = fns.foldl chain initial) := by
  exact ⟨rfl, fun _ _ => rfl, fun _ => rfl⟩

/-- Claim C4: tryCatch returns Right(r) when fn completes normally with r,
and Left(onError(e)) when fn raises any fault e; in particular
tryCatch(() => 42, onError) is right(42) and catching a fault carrying
message "boom" with the message extractor gives left("boom"). -/
theorem tryCatch_spec (onError : F → L) :
    (∀ r : R, tryCatch (Except.ok r) onError = right r) ∧
    (∀ e : F, tryCatch (Except.error e : Except F R) onError =
      left (onError e)) ∧
    (∀ onE : F → L, tryCatch (Except.ok (42 : Nat) : Except F Nat) onE =
      right 42) ∧
    tryCatch (Except.error "boom" : Except String Nat)
      (fun msg : String => msg) = left "boom" :=
  ⟨fun _ => rfl, fun _ => rfl, fun _ => rfl, rfl⟩

/-- Claim C5: chain satisfies the monad identity laws: chain(right(a), f)
equals f(a), and chain(e, right) equals e for every Either e. -/
theorem chain_identity_laws :
    (∀ (a : A) (f : A → Either L B), chain (right a) f = f a) ∧
    (∀ e : Either L A, chain e right = e) := by
  refine ⟨fun _ _ => rfl, fun e => ?_⟩
  rcases e with l | a <;> rfl

/-- Claim C6: map on Right(a) returns Right(f(a)); map on a Left returns
the original Left unchanged, the error payload passed through verbatim,
and independently of the mapped function. -/
theorem map_spec :
    (∀ (a : A) (f : A → B), map (right a : Either L A) f = right (f a)) ∧
    (∀ (l : L) (f : A → B), map (left l) f = left l) ∧
    (∀ (l : L) (f g : A → B), map (left l) f = map (left l) g) :=
  ⟨fun _ _ => rfl, fun _ _ => rfl, fun _ _ _ => rfl⟩

/-- Claim C7: fold invokes exactly one of the two handlers, selected by
the tag: fold(left(x), onLeft, onRight) equals onLeft(x) and does not
depend on onRight; fold(right(a), onLeft, onRight) equals onRight(a) and
does not depend on onLeft. -/
theorem fold_spec :
    (∀ (x : L) (onLeft : L → B) (onRight : A → B),
      fold (left x) onLeft onRight = onLeft x) ∧
    (∀ (x : L) (onLeft : L → B) (onRight onRight₂ : A → B),
      fold (left x) onLeft onRight = fold (left x) onLeft onRight₂) ∧
    (∀ (a : A) (onLeft : L → B) (onRight : A → B),
      fold (right a) onLeft onRight = onRight a) ∧
    (∀ (a : A) (onLeft onLeft₂ : L → B) (onRight : A → B),
      fold (right a) onLeft onRight = fold (right a) onLeft₂ onRight) :=
  ⟨fun _ _ _ => rfl, fun _ _ _ _ => rfl,
   fun _ _ _ => rfl, fun _ _ _ _ => rfl⟩

/-- Claim C8: when fn raises a fault synchronously, before producing any
deferred value (the outer layer of the invocation is a fault), the fault
is still caught: the deferred returned by tryCatchAsync settles — not by
fault — with Left(onError(fault)). -/
theorem tryCatchAsync_catches_sync_fault (e : F) (onError : F → L) :
    tryCatchAsync (Except.error e : Except F (Except F R)) onError =
      Except.ok (left (onError e)) ∧
    (∀ e₂ : F, tryCatchAsync (Except.error e : Except F (Except F R)) onError ≠
      Except.error e₂) := by
  refine ⟨rfl, fun e₂ h => ?_⟩
  simp [tryCatchAsync, awaitCall] at h

/-- Witness for C8 at concrete inputs: a synchronous fault "boom" is
converted to a fulfilled Left "boom". -/
theorem tryCatchAsync_catches_sync_fault_witness :
    tryCatchAsync (Except.error "boom" : Except String (Except String Nat))
      (fun s : String => s) = Except.ok (left "boom") :=
  (@tryCatchAsync_catches_sync_fault String Nat String "boom"
    (fun s : String => s)).1

/-- Claim C9: fromNullable returns Right(value) for every proper value,
including the falsy values 0, the empty string and false; only the two
sentinels null and undefined produce Left(error). -/
theorem fromNullable_spec :
    (∀ (a : A) (err : L), fromNullable (Nullish.value a) err = right a) ∧
    (∀ err : L, fromNullable (Nullish.null : Nullish A) err = left err) ∧
    (∀ err : L, fromNullable (Nullish.undefined : Nullish A) err = left err) ∧
    fromNullable (Nullish.value (0 : Int)) "missing" = right 0 ∧
    fromNullable (Nullish.value "") "missing" = right "" ∧
    fromNullable (Nullish.value false) "missing" = right false :=
  ⟨fun _ _ => rfl, fun _ => rfl, fun _ => rfl, rfl, rfl, rfl⟩

/-- Claim C10: pipe applied to an initial Either and the empty sequence of
functions returns the initial Either itself unchanged. -/
theorem pipe_nil (initial : Either L A) :
    pipe initial ([] : List (A → Either L A)) = initial := rfl

end SafeError
